import Mathlib

/-!
# resilient-scatter-gather: the request handler of `main.go`

A shallow embedding of `src/main.go`.

* Time is a natural number of nanoseconds since the handler was entered
  (`time.Duration` is a nanosecond count).
* A `context.Context` is the instant its `Done()` channel closes (if ever)
  together with the value `Err()` reports from then on.
* A Go `select` with one communication case and one `<-ctx.Done()` case is
  `selectCase`: a case that is ready alone when the select is entered, or that
  becomes ready first while the goroutine is blocked in it, is taken; when both
  are ready together, Go chooses pseudo-randomly, and the choice is an explicit
  argument.
* A worker that was cut off by the context sends only after `ctx.Done()` has
  closed. When the coordinator is already blocked in the select at that
  instant, the close commits it to the `ctx.Done()` case before that send can
  land (`recvSelect`); the random choice is left to the selects that are
  entered with both cases ready, and to a result that does not stem from the
  close and lands at the very instant of it.
* The three goroutines of the fan-out are run by a schedule (`Sched`) that
  says when each one starts its call, how long after the call returns its
  send lands in the one-slot channel, and how each `select` breaks a tie.
* The coordinator needs `CoordSched` time to reach each of its selects
  (`collectWith`, `chatSummaryHandlerWith`); `collect` and
  `chatSummaryHandler` are the coordinator that reaches each select the moment
  the previous statement has completed.
* What the handler does to the `http.ResponseWriter` and to the wait group
  is recorded as a list of `Effect`s, in program order.
* The deferred `cancel()` runs as the handler returns. On the 200 path every
  worker has finished by then (`wg.Wait()`); on an abort path with the
  source's adapters the context is already done (an adapter only fails with
  `ctx.Err()`), so the deferred call changes nothing the workers see and is
  left out.
-/

namespace ScatterGather

/-! ## Go library values used by the source -/

/-- Go `time.Millisecond`, in nanoseconds. -/
def Millisecond : Nat := 1000000

/-- Go `time.Microsecond`, in nanoseconds. -/
def Microsecond : Nat := 1000

/-- Go `time.Second`, in nanoseconds. -/
def Second : Nat := 1000 * Millisecond

/-- Go `http.StatusOK`. -/
def StatusOK : Nat := 200

/-- Go `http.StatusInternalServerError`. -/
def StatusInternalServerError : Nat := 500

/-- Go `error` values that occur in the program; the nil error is `none` of
`Option error`. `New s` is `errors.New(s)`. -/
inductive error where
  | DeadlineExceeded
  | Canceled
  | New (text : String)
  deriving DecidableEq, Repr

/-- A `context.Context`: `doneAt` is the instant `Done()` closes (`none`: never),
`err` is what `Err()` returns once it has closed. -/
structure Context where
  doneAt : Option Nat
  err : error
  deriving DecidableEq, Repr

/-- Go `context.Background()`: never cancelled. -/
def Background : Context := ⟨none, error.Canceled⟩

/-- Go `context.WithTimeout(parent, timeout)` called at instant 0: the child is
done when the parent is done or when the timeout elapses, whichever is first,
and reports the parent's error in the first case and `DeadlineExceeded` in the
second. -/
def WithTimeout (parent : Context) (timeout : Nat) : Context :=
  match parent.doneAt with
  | some p => if p < timeout then parent else ⟨some timeout, error.DeadlineExceeded⟩
  | none => ⟨some timeout, error.DeadlineExceeded⟩

/-- The two cases of every `select` in the source: the communication case
(a timer or a result channel) and `<-ctx.Done()`. -/
inductive Case where
  | comm
  | done
  deriving DecidableEq, Repr

/-- Go `select { case <-c: ... ; case <-ctx.Done(): ... }` entered at instant
`enter`, where `c` becomes ready at `commAt` and `ctx.Done()` at `doneAt`.
Returns the case taken and the instant it is taken. A case that was ready
before the select was entered is ready at `enter`. When both cases are ready
at the same instant the choice is `pick`. -/
def selectCase (enter commAt : Nat) (doneAt : Option Nat) (pick : Case) : Case × Nat :=
  let c := max enter commAt
  match doneAt with
  | none => (Case.comm, c)
  | some d =>
    let d' := max enter d
    if c < d' then (Case.comm, c)
    else if d' < c then (Case.done, d')
    else (pick, c)

/-- The coordinator's `select { case res := <-ch: ... ; case <-ctx.Done(): ... }`
entered at instant `enter`, where the worker's send lands in `ch` at `sentAt`
and carries the error `err`. A result that carries `ctx.Err()` was sent by a
worker that the close of `ctx.Done()` woke up: when the coordinator is already
blocked in the select as that send lands at the instant of the close, the
close has committed it to the `ctx.Done()` case. In every other respect this
is `selectCase`. -/
def recvSelect (ctx : Context) (enter sentAt : Nat) (err : Option error) (pick : Case) :
    Case × Nat :=
  selectCase enter sentAt ctx.doneAt
    (if enter < sentAt ∧ err = some ctx.err then Case.done else pick)

/-- A value together with the instant at which it is available. -/
structure Timed (α : Type) where
  val : α
  time : Nat
  deriving DecidableEq, Repr

/-! ## Models (main.go 14-42) -/

/-- `type User struct`, JSON keys `id` and `name`. -/
structure User where
  ID : String
  Username : String
  deriving DecidableEq, Repr

/-- `type Permissions struct`, JSON key `allowed`. -/
structure Permissions where
  Allowed : Bool
  deriving DecidableEq, Repr

/-- `type ContextData struct`, JSON key `summary`. -/
structure ContextData where
  Summary : String
  deriving DecidableEq, Repr

/-- `type UserResult struct`. -/
structure UserResult where
  User : User
  Err : Option error
  deriving DecidableEq, Repr

/-- `type PermissionResult struct`. -/
structure PermissionResult where
  Perm : Permissions
  Err : Option error
  deriving DecidableEq, Repr

/-- `type ContextResult struct`. -/
structure ContextResult where
  Ctx : ContextData
  Err : Option error
  deriving DecidableEq, Repr

/-! ## Upstream call adapters (main.go 44-86) -/

/-- `getUser(ctx)` called at instant `now`: races a 10ms timer against
`ctx.Done()`. Returns the pair `(User, error)` and the instant of return. -/
def getUser (ctx : Context) (now : Nat) (tie : Case) : Timed (User × Option error) :=
  match selectCase now (now + 10 * Millisecond) ctx.doneAt tie with
  | (Case.comm, t) => ⟨(⟨"123", "Name"⟩, none), t⟩
  | (Case.done, t) => ⟨(⟨"", ""⟩, some ctx.err), t⟩

/-- `checkAccess(ctx)` called at instant `now`: races a 50ms timer against
`ctx.Done()`. -/
def checkAccess (ctx : Context) (now : Nat) (tie : Case) : Timed (Permissions × Option error) :=
  match selectCase now (now + 50 * Millisecond) ctx.doneAt tie with
  | (Case.comm, t) => ⟨(⟨true⟩, none), t⟩
  | (Case.done, t) => ⟨(⟨false⟩, some ctx.err), t⟩

/-- `getContext(ctx)` called at instant `now`, with `n` the value drawn by
`rand.Intn(3)`: delay 100ms for 0, 3s for 1, and an immediate error otherwise. -/
def getContext (ctx : Context) (now : Nat) (n : Nat) (tie : Case) :
    Timed (ContextData × Option error) :=
  match n with
  | 0 =>
    match selectCase now (now + 100 * Millisecond) ctx.doneAt tie with
    | (Case.comm, t) => ⟨(⟨"some chat info"⟩, none), t⟩
    | (Case.done, t) => ⟨(⟨""⟩, some ctx.err), t⟩
  | 1 =>
    match selectCase now (now + 3 * Second) ctx.doneAt tie with
    | (Case.comm, t) => ⟨(⟨"some chat info"⟩, none), t⟩
    | (Case.done, t) => ⟨(⟨""⟩, some ctx.err), t⟩
  | _ => ⟨(⟨""⟩, some (error.New "vector memory failed")), now⟩

/-! ## The handler (main.go 89-173) -/

/-- A JSON document as `encoding/json` lays it out: an object is the list of
its key/value pairs in field order. -/
inductive JSON where
  | str (s : String)
  | bool (b : Bool)
  | obj (fields : List (String × JSON))

/-- The value under `key` in a JSON object, `none` when the key is absent. -/
def JSON.get (key : String) : JSON → Option JSON
  | JSON.obj fields => (fields.find? (fun kv => kv.1 == key)).map (fun kv => kv.2)
  | _ => none

/-- Whether `key` is a key of the JSON object. -/
def JSON.hasKey (key : String) : JSON → Bool
  | JSON.obj fields => fields.any (fun kv => kv.1 == key)
  | _ => false

/-- The JSON object without its `key` member. -/
def JSON.erase (key : String) : JSON → JSON
  | JSON.obj fields => JSON.obj (fields.filter (fun kv => !(kv.1 == key)))
  | j => j

/-- Encoding of `User` under its struct tags. -/
def User.toJSON (u : User) : JSON :=
  JSON.obj [("id", JSON.str u.ID), ("name", JSON.str u.Username)]

/-- Encoding of `Permissions` under its struct tags. -/
def Permissions.toJSON (p : Permissions) : JSON :=
  JSON.obj [("allowed", JSON.bool p.Allowed)]

/-- Encoding of `ContextData` under its struct tags. -/
def ContextData.toJSON (c : ContextData) : JSON :=
  JSON.obj [("summary", JSON.str c.Summary)]

/-- The handler's local `type Response struct` (main.go 159-163); `Context` is
the pointer field, `none` for nil. -/
structure Response where
  User : User
  Permissions : Permissions
  Context : Option ContextData
  deriving DecidableEq, Repr

/-- Encoding of `Response`: `user`, `permissions`, and `context` with
`omitempty`, so a nil pointer leaves the key out. -/
def Response.toJSON (r : Response) : JSON :=
  JSON.obj ([("user", r.User.toJSON), ("permissions", r.Permissions.toJSON)] ++
    match r.Context with
    | some c => [("context", c.toJSON)]
    | none => [])

/-- What the handler does to the response writer and the wait group. -/
inductive Effect where
  | httpError (msg : String) (code : Nat)
  | wgWait
  | headerSet (key value : String)
  | writeHeader (code : Nat)
  | encode (body : JSON)

/-- One execution of the handler: its effects in program order and the
instant it returns. -/
structure Run where
  effects : List Effect
  returnedAt : Nat

/-- The status code the client receives: that of the first `http.Error` or
`WriteHeader`. -/
def statusOf : List Effect → Option Nat
  | [] => none
  | Effect.httpError _ code :: _ => some code
  | Effect.writeHeader code :: _ => some code
  | _ :: rest => statusOf rest

/-- The JSON document written by `Encode`, if any. -/
def jsonOf : List Effect → Option JSON
  | [] => none
  | Effect.encode body :: _ => some body
  | _ :: rest => jsonOf rest

/-- The plain-text message written by `http.Error`, if any. -/
def messageOf : List Effect → Option String
  | [] => none
  | Effect.httpError msg _ :: _ => some msg
  | _ :: rest => messageOf rest

/-- Whether `wg.Wait()` was executed. -/
def joinedOf : List Effect → Bool
  | [] => false
  | Effect.wgWait :: _ => true
  | _ :: rest => joinedOf rest

/-- Status code of a run. -/
def Run.status (r : Run) : Option Nat := statusOf r.effects

/-- JSON body of a run. -/
def Run.json (r : Run) : Option JSON := jsonOf r.effects

/-- Plain-text error message of a run. -/
def Run.message (r : Run) : Option String := messageOf r.effects

/-- Whether the run joined the wait group before returning. -/
def Run.joined (r : Run) : Bool := joinedOf r.effects

/-- The time the coordinator needs to reach each of its three selects: the
first from the entry of the handler, the second and the third from the
completion of the select before. -/
structure CoordSched where
  reach1 : Nat
  reach2 : Nat
  reach3 : Nat
  deriving DecidableEq, Repr

/-- Lines 119-172 of `chatSummaryHandler`: the three collection selects, the
join, and the response. `userCh`, `permCh`, `ctxCh` give the value each worker
sends and the instant the send lands; `k` says how long the coordinator needs
to reach each select; `pick1`, `pick2`, `pick3` are the choices of the three
selects when both of their cases are ready. -/
def collectWith (k : CoordSched) (ctx : Context) (userCh : Timed UserResult)
    (permCh : Timed PermissionResult) (ctxCh : Timed ContextResult)
    (pick1 pick2 pick3 : Case) : Run :=
  match recvSelect ctx k.reach1 userCh.time userCh.val.Err pick1 with
  | (Case.done, t1) => ⟨[Effect.httpError "timeout on user service" StatusInternalServerError], t1⟩
  | (Case.comm, t1) =>
    match userCh.val.Err with
    | some _ => ⟨[Effect.httpError "user service failed" StatusInternalServerError], t1⟩
    | none =>
      let user := userCh.val.User
      match recvSelect ctx (t1 + k.reach2) permCh.time permCh.val.Err pick2 with
      | (Case.done, t2) =>
        ⟨[Effect.httpError "timeout on permissions service" StatusInternalServerError], t2⟩
      | (Case.comm, t2) =>
        match permCh.val.Err with
        | some _ =>
          ⟨[Effect.httpError "permissions service failed" StatusInternalServerError], t2⟩
        | none =>
          let perm := permCh.val.Perm
          let sel3 := recvSelect ctx (t2 + k.reach3) ctxCh.time ctxCh.val.Err pick3
          let contextData : Option ContextData :=
            match sel3.1 with
            | Case.comm => if ctxCh.val.Err = none then some ctxCh.val.Ctx else none
            | Case.done => none
          ⟨[Effect.wgWait,
            Effect.headerSet "Content-Type" "application/json",
            Effect.writeHeader StatusOK,
            Effect.encode (Response.toJSON ⟨user, perm, contextData⟩)],
           max sel3.2 (max userCh.time (max permCh.time ctxCh.time))⟩

/-- Lines 119-172 of `chatSummaryHandler` with a coordinator that reaches each
select the moment the previous statement has completed. -/
def collect (ctx : Context) (userCh : Timed UserResult) (permCh : Timed PermissionResult)
    (ctxCh : Timed ContextResult) (pick1 pick2 pick3 : Case) : Run :=
  collectWith ⟨0, 0, 0⟩ ctx userCh permCh ctxCh pick1 pick2 pick3

/-- How one fan-out goroutine is scheduled: the instant it starts its call,
the delay between the call's return and its send landing in the channel, and
the tie-break of the select inside the call. -/
structure WorkerSched where
  start : Nat
  lag : Nat
  tie : Case
  deriving DecidableEq, Repr

/-- A schedule of one request. -/
structure Sched where
  user : WorkerSched
  perm : WorkerSched
  context : WorkerSched
  pick1 : Case
  pick2 : Case
  pick3 : Case
  deriving DecidableEq, Repr

/-- The first goroutine (main.go 101-105): what lands in `userCh`, and when.
The deferred `wg.Done()` runs right after the send. -/
def userWorker (ctx : Context) (w : WorkerSched) : Timed UserResult :=
  let r := getUser ctx w.start w.tie
  ⟨⟨r.val.1, r.val.2⟩, r.time + w.lag⟩

/-- The second goroutine (main.go 107-111). -/
def permWorker (ctx : Context) (w : WorkerSched) : Timed PermissionResult :=
  let r := checkAccess ctx w.start w.tie
  ⟨⟨r.val.1, r.val.2⟩, r.time + w.lag⟩

/-- The third goroutine (main.go 113-117). -/
def contextWorker (ctx : Context) (n : Nat) (w : WorkerSched) : Timed ContextResult :=
  let r := getContext ctx w.start n w.tie
  ⟨⟨r.val.1, r.val.2⟩, r.time + w.lag⟩

/-- `chatSummaryHandler(w, r)`: `r` is the request's context, `n` the value
`rand.Intn(3)` yields inside `getContext`, `s` the schedule. -/
def chatSummaryHandler (r : Context) (n : Nat) (s : Sched) : Run :=
  let ctx := WithTimeout r (200 * Millisecond)
  collect ctx (userWorker ctx s.user) (permWorker ctx s.perm) (contextWorker ctx n s.context)
    s.pick1 s.pick2 s.pick3

/-- `chatSummaryHandler(w, r)` with a coordinator that needs `k` to reach its
selects. -/
def chatSummaryHandlerWith (k : CoordSched) (r : Context) (n : Nat) (s : Sched) : Run :=
  let ctx := WithTimeout r (200 * Millisecond)
  collectWith k ctx (userWorker ctx s.user) (permWorker ctx s.perm)
    (contextWorker ctx n s.context) s.pick1 s.pick2 s.pick3

/-- The instant the last of the three goroutines finishes (its send has landed
and its deferred `wg.Done()` has run). -/
def lastWorkerDone (r : Context) (n : Nat) (s : Sched) : Nat :=
  let ctx := WithTimeout r (200 * Millisecond)
  max (userWorker ctx s.user).time
    (max (permWorker ctx s.perm).time (contextWorker ctx n s.context).time)

/-- The schedule without delays: every goroutine starts at once and every send
lands the moment the call returns; ties are broken as given. -/
def promptSched (tie pick : Case) : Sched :=
  ⟨⟨0, 0, tie⟩, ⟨0, 0, tie⟩, ⟨0, 0, tie⟩, pick, pick, pick⟩

/-- Whether both mandatory outcomes are collected as successes: each of the
first two selects takes its channel case and the result carries a nil error. -/
def mandatoryCollected (ctx : Context) (userCh : Timed UserResult)
    (permCh : Timed PermissionResult) (pick1 pick2 : Case) : Bool :=
  let sel1 := recvSelect ctx 0 userCh.time userCh.val.Err pick1
  let sel2 := recvSelect ctx sel1.2 permCh.time permCh.val.Err pick2
  decide (sel1.1 = Case.comm) && decide (userCh.val.Err = none) &&
    decide (sel2.1 = Case.comm) && decide (permCh.val.Err = none)

/-- The four plain-text messages of the abort paths. -/
def abortMessages : List String :=
  ["user service failed", "timeout on user service",
   "permissions service failed", "timeout on permissions service"]

/-- Whether a result with error `err` lands on the same side of the instant the
context is done in two runs, at `t` in the one and at `t2` in the other: both
strictly before it, both strictly after it, or, for a result that carries the
context's own error, both at or after it. Always true for a context that is
never done. -/
def sameSide (ctx : Context) (err : Option error) (t t2 : Nat) : Bool :=
  match ctx.doneAt with
  | none => true
  | some d =>
    (decide (t < d) && decide (t2 < d)) || (decide (d < t) && decide (d < t2)) ||
      (decide (err = some ctx.err) && decide (d ≤ t) && decide (d ≤ t2))

/-- Whether the coordinator reaches every select it executes before the
context is done, when the identity result lands at `tu` and the access result
at `tp`: the first select always, the second when the identity result was in
time, the third when both were. -/
def entersBeforeDone (ctx : Context) (k : CoordSched) (tu tp : Nat) : Bool :=
  match ctx.doneAt with
  | none => true
  | some d =>
    decide (k.reach1 < d) &&
    (!decide (tu < d) || decide (max k.reach1 tu + k.reach2 < d)) &&
    (!decide (tu < d) || !decide (tp < d) ||
      decide (max (max k.reach1 tu + k.reach2) tp + k.reach3 < d))

/-! ## Facts about `selectCase` -/

theorem selectCase_none (enter commAt : Nat) (pick : Case) :
    selectCase enter commAt none pick = (Case.comm, max enter commAt) := rfl

theorem selectCase_comm_first {enter commAt d : Nat} (pick : Case)
    (h1 : enter < d) (h2 : commAt < d) :
    selectCase enter commAt (some d) pick = (Case.comm, max enter commAt) := by
  have hc : max enter commAt < max enter d := by
    rw [max_eq_right (Nat.le_of_lt h1)]
    exact max_lt h1 h2
  simp [selectCase, hc]

theorem selectCase_done_first {enter commAt d : Nat} (pick : Case)
    (h1 : enter < commAt) (h2 : d < commAt) :
    selectCase enter commAt (some d) pick = (Case.done, max enter d) := by
  have hc : max enter d < max enter commAt := by
    rw [max_eq_right (Nat.le_of_lt h1)]
    exact max_lt h1 h2
  have hn : ¬ max enter commAt < max enter d := Nat.not_lt.mpr (Nat.le_of_lt hc)
  simp [selectCase, hc, hn]

theorem selectCase_tie (enter d : Nat) (pick : Case) (h : enter ≤ d) :
    selectCase enter d (some d) pick = (pick, d) := by
  simp [selectCase, max_eq_right h]

theorem selectCase_comm_before (enter commAt : Nat) (doneAt : Option Nat) (pick : Case)
    (h1 : ∀ d, doneAt = some d → enter < d) (h2 : ∀ d, doneAt = some d → commAt < d) :
    selectCase enter commAt doneAt pick = (Case.comm, max enter commAt) := by
  cases doneAt with
  | none => rfl
  | some d => exact selectCase_comm_first pick (h1 d rfl) (h2 d rfl)

theorem recvSelect_comm_before (ctx : Context) (enter sentAt : Nat) (err : Option error)
    (pick : Case) (h1 : ∀ d, ctx.doneAt = some d → enter < d)
    (h2 : ∀ d, ctx.doneAt = some d → sentAt < d) :
    recvSelect ctx enter sentAt err pick = (Case.comm, max enter sentAt) :=
  selectCase_comm_before enter sentAt ctx.doneAt _ h1 h2

theorem recvSelect_done_first (ctx : Context) (enter sentAt d : Nat) (err : Option error)
    (pick : Case) (hd : ctx.doneAt = some d) (h1 : enter < sentAt) (h2 : d < sentAt) :
    recvSelect ctx enter sentAt err pick = (Case.done, max enter d) := by
  unfold recvSelect
  rw [hd]
  exact selectCase_done_first _ h1 h2

theorem recvSelect_cut_off (ctx : Context) (enter sentAt d : Nat) (pick : Case)
    (hd : ctx.doneAt = some d) (h1 : enter < d) (h2 : d ≤ sentAt) :
    recvSelect ctx enter sentAt (some ctx.err) pick = (Case.done, d) := by
  rcases Nat.lt_or_eq_of_le h2 with hlt | heq
  · rw [recvSelect_done_first ctx enter sentAt d _ pick hd (Nat.lt_trans h1 hlt) hlt,
      max_eq_right (Nat.le_of_lt h1)]
  · subst heq
    unfold recvSelect
    rw [hd, selectCase_tie enter d _ (Nat.le_of_lt h1)]
    simp [h1]

theorem collect_def (ctx : Context) (userCh : Timed UserResult)
    (permCh : Timed PermissionResult) (ctxCh : Timed ContextResult) (pick1 pick2 pick3 : Case) :
    collect ctx userCh permCh ctxCh pick1 pick2 pick3 =
      match recvSelect ctx 0 userCh.time userCh.val.Err pick1 with
      | (Case.done, t1) =>
        ⟨[Effect.httpError "timeout on user service" StatusInternalServerError], t1⟩
      | (Case.comm, t1) =>
        match userCh.val.Err with
        | some _ => ⟨[Effect.httpError "user service failed" StatusInternalServerError], t1⟩
        | none =>
          match recvSelect ctx t1 permCh.time permCh.val.Err pick2 with
          | (Case.done, t2) =>
            ⟨[Effect.httpError "timeout on permissions service" StatusInternalServerError], t2⟩
          | (Case.comm, t2) =>
            match permCh.val.Err with
            | some _ =>
              ⟨[Effect.httpError "permissions service failed" StatusInternalServerError], t2⟩
            | none =>
              ⟨[Effect.wgWait,
                Effect.headerSet "Content-Type" "application/json",
                Effect.writeHeader StatusOK,
                Effect.encode (Response.toJSON ⟨userCh.val.User, permCh.val.Perm,
                  match (recvSelect ctx t2 ctxCh.time ctxCh.val.Err pick3).1 with
                  | Case.comm => if ctxCh.val.Err = none then some ctxCh.val.Ctx else none
                  | Case.done => none⟩)],
               max (recvSelect ctx t2 ctxCh.time ctxCh.val.Err pick3).2
                 (max userCh.time (max permCh.time ctxCh.time))⟩ := rfl

/-! ## The handler's contract -/

/-- C4 (mandatory timeout), evaluated where it fails: the request context has
a deadline of 10.05ms and the coordinator needs 0.1ms from the first select to
the second. The identity call succeeds at 10ms, before the deadline; the 50ms
access call is cut off at 10.05ms and its worker sends `DeadlineExceeded` to
`permCh`. The second select is entered at 10.1ms with both `permCh` and
`ctx.Done()` ready: taking `permCh` answers "permissions service failed",
taking `ctx.Done()` answers "timeout on permissions service". -/
theorem C4_access_timeout_reported_as_failure :
    (userWorker (WithTimeout ⟨some (10 * Millisecond + 50 * Microsecond), error.DeadlineExceeded⟩
        (200 * Millisecond)) ⟨0, 0, Case.comm⟩)
      = ⟨⟨⟨"123", "Name"⟩, none⟩, 10 * Millisecond⟩ ∧
    (permWorker (WithTimeout ⟨some (10 * Millisecond + 50 * Microsecond), error.DeadlineExceeded⟩
        (200 * Millisecond)) ⟨0, 0, Case.comm⟩)
      = ⟨⟨⟨false⟩, some error.DeadlineExceeded⟩, 10 * Millisecond + 50 * Microsecond⟩ ∧
    (chatSummaryHandlerWith ⟨0, 100 * Microsecond, 0⟩
        ⟨some (10 * Millisecond + 50 * Microsecond), error.DeadlineExceeded⟩ 0
        (promptSched Case.comm Case.comm)).effects
      = [Effect.httpError "permissions service failed" 500] ∧
    (chatSummaryHandlerWith ⟨0, 100 * Microsecond, 0⟩
        ⟨some (10 * Millisecond + 50 * Microsecond), error.DeadlineExceeded⟩ 0
        (promptSched Case.comm Case.done)).effects
      = [Effect.httpError "timeout on permissions service" 500] := by
  refine ⟨by decide, by decide, by rfl, by rfl⟩

/-- C5 (no leaked concurrency), evaluated where it fails: the request context
is cancelled at 5ms and every worker needs 1ms from the return of its call to
the end of the goroutine. The handler answers "timeout on user service" and
returns at 5ms without executing `wg.Wait()`, while the last worker finishes
at 6ms. -/
theorem C5_abort_returns_without_join :
    (chatSummaryHandler ⟨some (5 * Millisecond), error.Canceled⟩ 0
        ⟨⟨0, Millisecond, Case.comm⟩, ⟨0, Millisecond, Case.comm⟩, ⟨0, Millisecond, Case.comm⟩,
          Case.comm, Case.comm, Case.comm⟩).effects
      = [Effect.httpError "timeout on user service" 500] ∧
    (chatSummaryHandler ⟨some (5 * Millisecond), error.Canceled⟩ 0
        ⟨⟨0, Millisecond, Case.comm⟩, ⟨0, Millisecond, Case.comm⟩, ⟨0, Millisecond, Case.comm⟩,
          Case.comm, Case.comm, Case.comm⟩).joined = false ∧
    (chatSummaryHandler ⟨some (5 * Millisecond), error.Canceled⟩ 0
        ⟨⟨0, Millisecond, Case.comm⟩, ⟨0, Millisecond, Case.comm⟩, ⟨0, Millisecond, Case.comm⟩,
          Case.comm, Case.comm, Case.comm⟩).returnedAt = 5 * Millisecond ∧
    lastWorkerDone ⟨some (5 * Millisecond), error.Canceled⟩ 0
        ⟨⟨0, Millisecond, Case.comm⟩, ⟨0, Millisecond, Case.comm⟩, ⟨0, Millisecond, Case.comm⟩,
          Case.comm, Case.comm, Case.comm⟩ = 6 * Millisecond := by
  refine ⟨by rfl, by decide, by decide, by decide⟩

/-- C7 (response invariant): the handler answers 200 with an encoded JSON body
exactly when both mandatory outcomes were collected as successes, and then its
effects are the join, the header, the status and one `Encode` of the response
built from the two collected values; in every other case its only effect is
one `http.Error` with status 500 and one of the four abort messages, and
nothing is encoded. -/
theorem C7_response_invariant (ctx : Context) (userCh : Timed UserResult)
    (permCh : Timed PermissionResult) (ctxCh : Timed ContextResult) (pick1 pick2 pick3 : Case) :
    (mandatoryCollected ctx userCh permCh pick1 pick2 = true ↔
      ((collect ctx userCh permCh ctxCh pick1 pick2 pick3).status = some 200 ∧
       (collect ctx userCh permCh ctxCh pick1 pick2 pick3).json ≠ none)) ∧
    (mandatoryCollected ctx userCh permCh pick1 pick2 = true →
      ∃ c : Option ContextData,
        (collect ctx userCh permCh ctxCh pick1 pick2 pick3).effects
          = [Effect.wgWait, Effect.headerSet "Content-Type" "application/json",
             Effect.writeHeader 200,
             Effect.encode (Response.toJSON ⟨userCh.val.User, permCh.val.Perm, c⟩)]) ∧
    (mandatoryCollected ctx userCh permCh pick1 pick2 = false →
      (collect ctx userCh permCh ctxCh pick1 pick2 pick3).json = none ∧
      ∃ m, m ∈ abortMessages ∧
        (collect ctx userCh permCh ctxCh pick1 pick2 pick3).effects
          = [Effect.httpError m 500]) := by
  rw [collect_def]
  unfold mandatoryCollected
  generalize recvSelect ctx 0 userCh.time userCh.val.Err pick1 = s1
  obtain ⟨c1, t1⟩ := s1
  cases c1 with
  | done =>
    simp [Run.status, Run.json, statusOf, jsonOf, abortMessages, StatusInternalServerError]
  | comm =>
    cases hue : userCh.val.Err with
    | some e =>
      simp [Run.status, Run.json, statusOf, jsonOf, abortMessages, StatusInternalServerError]
    | none =>
      simp only []
      generalize recvSelect ctx t1 permCh.time permCh.val.Err pick2 = s2
      obtain ⟨c2, t2⟩ := s2
      cases c2 with
      | done =>
        simp [Run.status, Run.json, statusOf, jsonOf, abortMessages, StatusInternalServerError]
      | comm =>
        cases hpe : permCh.val.Err with
        | some e =>
          simp [Run.status, Run.json, statusOf, jsonOf, abortMessages,
            StatusInternalServerError]
        | none =>
          simp only [Run.status, Run.json, statusOf, jsonOf, StatusOK]
          refine ⟨by simp, fun _ => ⟨_, rfl⟩, by simp⟩

/-- Witness of C7: under the reference deadline, with the identity result
landing at 10ms and the access result at 50ms, both mandatory outcomes are
collected and the status is 200. -/
theorem C7_response_invariant_witness :
    (collect (WithTimeout Background (200 * Millisecond))
        ⟨⟨⟨"123", "Name"⟩, none⟩, 10 * Millisecond⟩ ⟨⟨⟨true⟩, none⟩, 50 * Millisecond⟩
        ⟨⟨⟨""⟩, some (error.New "vector memory failed")⟩, 0⟩
        Case.comm Case.comm Case.comm).status = some 200 :=
  ((C7_response_invariant (WithTimeout Background (200 * Millisecond))
      ⟨⟨⟨"123", "Name"⟩, none⟩, 10 * Millisecond⟩ ⟨⟨⟨true⟩, none⟩, 50 * Millisecond⟩
      ⟨⟨⟨""⟩, some (error.New "vector memory failed")⟩, 0⟩
      Case.comm Case.comm Case.comm).1.mp (by decide)).1

/-! ## The adapters -/

theorem selectCase_timer_cancelled (now delay d : Nat) (tie : Case)
    (hpos : 0 < delay) (h : d < now + delay) :
    selectCase now (now + delay) (some d) tie = (Case.done, max now d) :=
  selectCase_done_first tie (Nat.lt_add_of_pos_right hpos) h

theorem selectCase_timer_elapsed (now delay : Nat) (doneAt : Option Nat) (tie : Case)
    (h : ∀ d, doneAt = some d → now + delay < d) :
    selectCase now (now + delay) doneAt tie = (Case.comm, now + delay) := by
  have h1 : ∀ d, doneAt = some d → now < d :=
    fun d hd => Nat.lt_of_le_of_lt (Nat.le_add_right now delay) (h d hd)
  rw [selectCase_comm_before now (now + delay) doneAt tie h1 h,
    max_eq_right (Nat.le_add_right now delay)]

/-- C8 (adapter cancellation contract): each of `getUser` (10ms), `checkAccess`
(50ms) and `getContext` in its delayed modes (100ms for 0, 3s for 1), called at
instant `now`, returns the zero value together with the context's error when
the context is done strictly before the latency has elapsed, and returns its
fixed normal result with a nil error when the latency elapses strictly before
the context is done (or the context is never done). -/
theorem C8_adapter_cancellation (ctx : Context) (now : Nat) (tie : Case) :
    (∀ d, ctx.doneAt = some d → d < now + 10 * Millisecond →
      getUser ctx now tie = ⟨(⟨"", ""⟩, some ctx.err), max now d⟩) ∧
    ((∀ d, ctx.doneAt = some d → now + 10 * Millisecond < d) →
      getUser ctx now tie = ⟨(⟨"123", "Name"⟩, none), now + 10 * Millisecond⟩) ∧
    (∀ d, ctx.doneAt = some d → d < now + 50 * Millisecond →
      checkAccess ctx now tie = ⟨(⟨false⟩, some ctx.err), max now d⟩) ∧
    ((∀ d, ctx.doneAt = some d → now + 50 * Millisecond < d) →
      checkAccess ctx now tie = ⟨(⟨true⟩, none), now + 50 * Millisecond⟩) ∧
    (∀ d, ctx.doneAt = some d → d < now + 100 * Millisecond →
      getContext ctx now 0 tie = ⟨(⟨""⟩, some ctx.err), max now d⟩) ∧
    ((∀ d, ctx.doneAt = some d → now + 100 * Millisecond < d) →
      getContext ctx now 0 tie = ⟨(⟨"some chat info"⟩, none), now + 100 * Millisecond⟩) ∧
    (∀ d, ctx.doneAt = some d → d < now + 3 * Second →
      getContext ctx now 1 tie = ⟨(⟨""⟩, some ctx.err), max now d⟩) ∧
    ((∀ d, ctx.doneAt = some d → now + 3 * Second < d) →
      getContext ctx now 1 tie = ⟨(⟨"some chat info"⟩, none), now + 3 * Second⟩) := by
  refine ⟨?_, ?_, ?_, ?_, ?_, ?_, ?_, ?_⟩
  · intro d hd h
    simp only [getUser, hd, selectCase_timer_cancelled now _ d tie (by decide) h]
  · intro h
    simp only [getUser, selectCase_timer_elapsed now _ ctx.doneAt tie h]
  · intro d hd h
    simp only [checkAccess, hd, selectCase_timer_cancelled now _ d tie (by decide) h]
  · intro h
    simp only [checkAccess, selectCase_timer_elapsed now _ ctx.doneAt tie h]
  · intro d hd h
    simp only [getContext, hd, selectCase_timer_cancelled now _ d tie (by decide) h]
  · intro h
    simp only [getContext, selectCase_timer_elapsed now _ ctx.doneAt tie h]
  · intro d hd h
    simp only [getContext, hd, selectCase_timer_cancelled now _ d tie (by decide) h]
  · intro h
    simp only [getContext, selectCase_timer_elapsed now _ ctx.doneAt tie h]

/-- Witness of C8: under the reference 200ms deadline, `getContext` in its 3s
mode started at instant 0 is cut off at 200ms with `DeadlineExceeded`. -/
theorem C8_adapter_cancellation_witness :
    getContext (WithTimeout Background (200 * Millisecond)) 0 1 Case.comm
      = ⟨(⟨""⟩, some error.DeadlineExceeded), 200 * Millisecond⟩ :=
  (C8_adapter_cancellation (WithTimeout Background (200 * Millisecond)) 0 Case.comm).2.2.2.2.2.2.1
    (200 * Millisecond) rfl (by decide)

/-! ## The handler with the reference constants -/

theorem responseJSON_get_user (u : User) (p : Permissions) (c : Option ContextData) :
    JSON.get "user" (Response.toJSON ⟨u, p, c⟩) = some u.toJSON := by
  cases c <;> rfl

theorem responseJSON_get_permissions (u : User) (p : Permissions) (c : Option ContextData) :
    JSON.get "permissions" (Response.toJSON ⟨u, p, c⟩) = some p.toJSON := by
  cases c <;> rfl

theorem responseJSON_erase_context (u : User) (p : Permissions) (c : Option ContextData) :
    JSON.erase "context" (Response.toJSON ⟨u, p, c⟩) = Response.toJSON ⟨u, p, none⟩ := by
  cases c <;> rfl

theorem responseJSON_hasKey_context (u : User) (p : Permissions) (c : Option ContextData) :
    JSON.hasKey "context" (Response.toJSON ⟨u, p, c⟩) = c.isSome := by
  cases c <;> rfl

/-- The first two selects decide the shape of the run: either an abort that
ignores the context delivery altogether, or the 200 path whose body is built
from the two mandatory values and whatever the third select collects. -/
theorem collect_shape (ctx : Context) (userCh : Timed UserResult)
    (permCh : Timed PermissionResult) (pick1 pick2 : Case) :
    (∃ m t, ∀ (ctxCh : Timed ContextResult) (pick3 : Case),
      collect ctx userCh permCh ctxCh pick1 pick2 pick3 = ⟨[Effect.httpError m 500], t⟩) ∨
    (∃ t2, ∀ (ctxCh : Timed ContextResult) (pick3 : Case),
      (collect ctx userCh permCh ctxCh pick1 pick2 pick3).effects
        = [Effect.wgWait, Effect.headerSet "Content-Type" "application/json",
           Effect.writeHeader 200,
           Effect.encode (Response.toJSON ⟨userCh.val.User, permCh.val.Perm,
             match (recvSelect ctx t2 ctxCh.time ctxCh.val.Err pick3).1 with
             | Case.comm => if ctxCh.val.Err = none then some ctxCh.val.Ctx else none
             | Case.done => none⟩)]) := by
  simp only [collect_def]
  generalize recvSelect ctx 0 userCh.time userCh.val.Err pick1 = s1
  obtain ⟨c1, t1⟩ := s1
  cases c1 with
  | done => exact Or.inl ⟨_, _, fun _ _ => rfl⟩
  | comm =>
    cases userCh.val.Err with
    | some e => exact Or.inl ⟨_, _, fun _ _ => rfl⟩
    | none =>
      simp only []
      generalize recvSelect ctx t1 permCh.time permCh.val.Err pick2 = s2
      obtain ⟨c2, t2⟩ := s2
      cases c2 with
      | done => exact Or.inl ⟨_, _, fun _ _ => rfl⟩
      | comm =>
        cases permCh.val.Err with
        | some e => exact Or.inl ⟨_, _, fun _ _ => rfl⟩
        | none => exact Or.inr ⟨t2, fun _ _ => rfl⟩

theorem contextWorker_value (ctx : Context) (n : Nat) (w : WorkerSched)
    (h : (contextWorker ctx n w).val.Err = none) :
    (contextWorker ctx n w).val.Ctx = ⟨"some chat info"⟩ := by
  match n with
  | 0 =>
    revert h
    simp only [contextWorker, getContext]
    generalize selectCase w.start (w.start + 100 * Millisecond) ctx.doneAt w.tie = s
    obtain ⟨c, t⟩ := s
    cases c <;> simp
  | 1 =>
    revert h
    simp only [contextWorker, getContext]
    generalize selectCase w.start (w.start + 3 * Second) ctx.doneAt w.tie = s
    obtain ⟨c, t⟩ := s
    cases c <;> simp
  | k + 2 =>
    exact absurd h (by simp [contextWorker, getContext])

theorem collected_context_cases (ctx : Context) (n : Nat) (w : WorkerSched) (cs : Case) :
    (match cs with
      | Case.comm =>
        if (contextWorker ctx n w).val.Err = none then some (contextWorker ctx n w).val.Ctx
        else none
      | Case.done => (none : Option ContextData)) = none ∨
    (match cs with
      | Case.comm =>
        if (contextWorker ctx n w).val.Err = none then some (contextWorker ctx n w).val.Ctx
        else none
      | Case.done => (none : Option ContextData)) = some ⟨"some chat info"⟩ := by
  cases cs with
  | done => exact Or.inl rfl
  | comm =>
    by_cases he : (contextWorker ctx n w).val.Err = none
    · right
      simp only [he, if_true, contextWorker_value ctx n w he]
    · left
      simp only [he, if_false]

/-- C6 (deadline isolation): two runs that share the context, the identity and
access deliveries and the choices of the first two selects, and differ only in
what the context call delivers, when, and how the third select chooses, have
the same status, the same error message, the same `user` and `permissions`,
and the same body once `context` is left out. For the handler with the
source's adapters the two bodies are equal or differ in whether `context` is
present. -/
theorem C6_deadline_isolation (ctx : Context) (userCh : Timed UserResult)
    (permCh : Timed PermissionResult) (ctxCh ctxCh' : Timed ContextResult)
    (pick1 pick2 pick3 pick3' : Case) (r : Context) (n n' : Nat) (s : Sched)
    (w' : WorkerSched) :
    ((collect ctx userCh permCh ctxCh pick1 pick2 pick3).status
        = (collect ctx userCh permCh ctxCh' pick1 pick2 pick3').status ∧
     (collect ctx userCh permCh ctxCh pick1 pick2 pick3).message
        = (collect ctx userCh permCh ctxCh' pick1 pick2 pick3').message ∧
     (collect ctx userCh permCh ctxCh pick1 pick2 pick3).json.bind (JSON.get "user")
        = (collect ctx userCh permCh ctxCh' pick1 pick2 pick3').json.bind (JSON.get "user") ∧
     (collect ctx userCh permCh ctxCh pick1 pick2 pick3).json.bind (JSON.get "permissions")
        = (collect ctx userCh permCh ctxCh' pick1 pick2 pick3').json.bind
            (JSON.get "permissions") ∧
     (collect ctx userCh permCh ctxCh pick1 pick2 pick3).json.map (JSON.erase "context")
        = (collect ctx userCh permCh ctxCh' pick1 pick2 pick3').json.map
            (JSON.erase "context")) ∧
    ((chatSummaryHandler r n s).status
        = (chatSummaryHandler r n' { s with context := w', pick3 := pick3' }).status ∧
     ((chatSummaryHandler r n s).json
        = (chatSummaryHandler r n' { s with context := w', pick3 := pick3' }).json ∨
      (chatSummaryHandler r n s).json.map (JSON.hasKey "context")
        ≠ (chatSummaryHandler r n' { s with context := w', pick3 := pick3' }).json.map
            (JSON.hasKey "context"))) := by
  constructor
  · rcases collect_shape ctx userCh permCh pick1 pick2 with ⟨m, t, h⟩ | ⟨t2, h⟩
    · rw [h ctxCh pick3, h ctxCh' pick3']
      exact ⟨rfl, rfl, rfl, rfl, rfl⟩
    · have e1 := h ctxCh pick3
      have e2 := h ctxCh' pick3'
      refine ⟨?_, ?_, ?_, ?_, ?_⟩
      · simp only [Run.status, e1, e2, statusOf]
      · simp only [Run.message, e1, e2, messageOf]
      · simp [Run.json, e1, e2, jsonOf, responseJSON_get_user]
      · simp [Run.json, e1, e2, jsonOf, responseJSON_get_permissions]
      · simp [Run.json, e1, e2, jsonOf, responseJSON_erase_context]
  · simp only [chatSummaryHandler]
    generalize WithTimeout r (200 * Millisecond) = cx
    rcases collect_shape cx (userWorker cx s.user) (permWorker cx s.perm) s.pick1 s.pick2
      with ⟨m, t, h⟩ | ⟨t2, h⟩
    · rw [h, h]
      exact ⟨rfl, Or.inl rfl⟩
    · simp only [Run.status, Run.json, h, statusOf, jsonOf, Option.map_some', true_and]
      have ha := collected_context_cases cx n s.context
        (recvSelect cx t2 (contextWorker cx n s.context).time
          (contextWorker cx n s.context).val.Err s.pick3).1
      have hb := collected_context_cases cx n' w'
        (recvSelect cx t2 (contextWorker cx n' w').time
          (contextWorker cx n' w').val.Err pick3').1
      rcases ha with ha | ha <;> rcases hb with hb | hb <;> rw [ha, hb]
      · exact Or.inl rfl
      · exact Or.inr (by simp [responseJSON_hasKey_context])
      · exact Or.inr (by simp [responseJSON_hasKey_context])
      · exact Or.inl rfl

/-- Witness of C6: under the reference deadline, a context delivery at 100ms
and one that fails at once leave the status at 200 on both runs. -/
theorem C6_deadline_isolation_witness :
    (chatSummaryHandler Background 0 (promptSched Case.comm Case.comm)).status
      = (chatSummaryHandler Background 2
          { promptSched Case.comm Case.comm with
            context := ⟨0, 5 * Millisecond, Case.done⟩, pick3 := Case.done }).status :=
  (C6_deadline_isolation Background ⟨⟨⟨"123", "Name"⟩, none⟩, 0⟩ ⟨⟨⟨true⟩, none⟩, 0⟩
    ⟨⟨⟨"some chat info"⟩, none⟩, 0⟩ ⟨⟨⟨""⟩, some error.Canceled⟩, 0⟩
    Case.comm Case.comm Case.comm Case.done Background 0 2 (promptSched Case.comm Case.comm)
    ⟨0, 5 * Millisecond, Case.done⟩).2.1

theorem recvSelect_in_time (ctx : Context) (d enter sentAt : Nat) (err : Option error)
    (pick : Case) (hd : ctx.doneAt = some d) (he : enter < d) (ht : sentAt < d) :
    recvSelect ctx enter sentAt err pick = (Case.comm, max enter sentAt) :=
  recvSelect_comm_before ctx enter sentAt err pick
    (fun x hx => by rw [hd] at hx; cases hx; exact he)
    (fun x hx => by rw [hd] at hx; cases hx; exact ht)

theorem recvSelect_late (ctx : Context) (d enter sentAt : Nat) (err : Option error)
    (pick : Case) (hd : ctx.doneAt = some d) (he : enter < d)
    (ht : d < sentAt ∨ (err = some ctx.err ∧ d ≤ sentAt)) :
    recvSelect ctx enter sentAt err pick = (Case.done, d) := by
  rcases ht with hlt | ⟨herr, hle⟩
  · rw [recvSelect_done_first ctx enter sentAt d err pick hd (Nat.lt_trans he hlt) hlt,
      max_eq_right (Nat.le_of_lt he)]
  · rw [herr]
    exact recvSelect_cut_off ctx enter sentAt d pick hd he hle

/-- With a coordinator that is blocked in the second select when the context
is done, an access call that was cut off is reported as a timeout, whatever
the select would choose and however late the worker's send lands. -/
theorem cut_off_access_reported_when_blocked (ctx : Context) (userCh : Timed UserResult)
    (permCh : Timed PermissionResult) (ctxCh : Timed ContextResult)
    (pick1 pick2 pick3 : Case) (d : Nat) (hd : ctx.doneAt = some d)
    (hue : userCh.val.Err = none) (hu : userCh.time < d)
    (hpe : permCh.val.Err = some ctx.err) (hp : d ≤ permCh.time) :
    (collect ctx userCh permCh ctxCh pick1 pick2 pick3).effects
      = [Effect.httpError "timeout on permissions service" 500] := by
  have h0 : 0 < d := Nat.lt_of_le_of_lt (Nat.zero_le _) hu
  have s1 := recvSelect_in_time ctx d 0 userCh.time userCh.val.Err pick1 hd h0 hu
  have s2 := recvSelect_late ctx d (max 0 userCh.time) permCh.time permCh.val.Err pick2 hd
    (max_lt h0 hu) (Or.inr ⟨hpe, hp⟩)
  rw [collect_def]
  simp only [s1, s2]
  simp only [hue, StatusInternalServerError]

/-- C10 (response determinism), evaluated where it fails, on three pairs of
runs with the same adapter outcomes. First, the request context has a 100ms
deadline and the context call succeeds at exactly 100ms: the two runs differ
only in the choice of the third select and both answer 200, one with `context`
in the body and one without. Second, the request context has a 10.05ms
deadline and the identity call succeeds at 10ms; its send lands 0.01ms later
in the one run and 0.1ms later in the other: the first run collects it and
answers "timeout on permissions service", the second answers "timeout on user
service". Third, with the same deadline the coordinator reaches its first
select only at 10.1ms, when the identity result and `ctx.Done()` are both
ready: the two runs differ only in the choice of the first select and answer
"timeout on permissions service" (the identity result is taken, the second
select takes `ctx.Done()`) and "timeout on user service". -/
theorem C10_same_outcomes_different_responses :
    (contextWorker (WithTimeout ⟨some (100 * Millisecond), error.DeadlineExceeded⟩
        (200 * Millisecond)) 0 ⟨0, 0, Case.comm⟩
      = ⟨⟨⟨"some chat info"⟩, none⟩, 100 * Millisecond⟩ ∧
     (chatSummaryHandler ⟨some (100 * Millisecond), error.DeadlineExceeded⟩ 0
        ⟨⟨0, 0, Case.comm⟩, ⟨0, 0, Case.comm⟩, ⟨0, 0, Case.comm⟩,
          Case.comm, Case.comm, Case.comm⟩).json.map (JSON.hasKey "context") = some true ∧
     (chatSummaryHandler ⟨some (100 * Millisecond), error.DeadlineExceeded⟩ 0
        ⟨⟨0, 0, Case.comm⟩, ⟨0, 0, Case.comm⟩, ⟨0, 0, Case.comm⟩,
          Case.comm, Case.comm, Case.done⟩).json.map (JSON.hasKey "context") = some false) ∧
    ((userWorker (WithTimeout ⟨some (10 * Millisecond + 50 * Microsecond),
          error.DeadlineExceeded⟩ (200 * Millisecond)) ⟨0, 10 * Microsecond, Case.comm⟩).val
      = ⟨⟨"123", "Name"⟩, none⟩ ∧
     (userWorker (WithTimeout ⟨some (10 * Millisecond + 50 * Microsecond),
          error.DeadlineExceeded⟩ (200 * Millisecond)) ⟨0, 100 * Microsecond, Case.comm⟩).val
      = ⟨⟨"123", "Name"⟩, none⟩ ∧
     (chatSummaryHandler ⟨some (10 * Millisecond + 50 * Microsecond), error.DeadlineExceeded⟩ 0
        ⟨⟨0, 10 * Microsecond, Case.comm⟩, ⟨0, 0, Case.comm⟩, ⟨0, 0, Case.comm⟩,
          Case.comm, Case.comm, Case.comm⟩).effects
      = [Effect.httpError "timeout on permissions service" 500] ∧
     (chatSummaryHandler ⟨some (10 * Millisecond + 50 * Microsecond), error.DeadlineExceeded⟩ 0
        ⟨⟨0, 100 * Microsecond, Case.comm⟩, ⟨0, 0, Case.comm⟩, ⟨0, 0, Case.comm⟩,
          Case.comm, Case.comm, Case.comm⟩).effects
      = [Effect.httpError "timeout on user service" 500]) ∧
    (userWorker (WithTimeout ⟨some (10 * Millisecond + 50 * Microsecond), error.DeadlineExceeded⟩
        (200 * Millisecond)) ⟨0, 0, Case.comm⟩
      = ⟨⟨⟨"123", "Name"⟩, none⟩, 10 * Millisecond⟩ ∧
     (chatSummaryHandlerWith ⟨10 * Millisecond + 100 * Microsecond, 0, 0⟩
        ⟨some (10 * Millisecond + 50 * Microsecond), error.DeadlineExceeded⟩ 0
        ⟨⟨0, 0, Case.comm⟩, ⟨0, 0, Case.comm⟩, ⟨0, 0, Case.comm⟩,
          Case.comm, Case.done, Case.done⟩).effects
      = [Effect.httpError "timeout on permissions service" 500] ∧
     (chatSummaryHandlerWith ⟨10 * Millisecond + 100 * Microsecond, 0, 0⟩
        ⟨some (10 * Millisecond + 50 * Microsecond), error.DeadlineExceeded⟩ 0
        ⟨⟨0, 0, Case.comm⟩, ⟨0, 0, Case.comm⟩, ⟨0, 0, Case.comm⟩,
          Case.done, Case.done, Case.done⟩).effects
      = [Effect.httpError "timeout on user service" 500]) := by
  refine ⟨⟨by decide, by decide, by decide⟩, ⟨by decide, by decide, by rfl, by rfl⟩,
    ⟨by decide, by rfl, by rfl⟩⟩

/-- C10 as amended: two runs in which the three adapters produce the same
outcomes, each mandatory result lands on the same side of the instant the
context is done (a result that carries the context's own error may land at
that very instant), the context result is a failure or lands on the same side,
and the coordinator reaches every select it executes before the context is
done, have the same effects (status, message and body), whatever the landing
instants, the coordinator's latencies and the choices of the three selects. -/
theorem C10_determinism_same_side (ctx : Context) (u : UserResult) (p : PermissionResult)
    (c : ContextResult) (tu tp tc tu2 tp2 tc2 : Nat) (k k2 : CoordSched)
    (p1 p2 p3 q1 q2 q3 : Case)
    (hu : sameSide ctx u.Err tu tu2 = true)
    (hp : sameSide ctx p.Err tp tp2 = true)
    (hc : c.Err ≠ none ∨ sameSide ctx c.Err tc tc2 = true)
    (hk : entersBeforeDone ctx k tu tp = true)
    (hk2 : entersBeforeDone ctx k2 tu2 tp2 = true) :
    (collectWith k ctx ⟨u, tu⟩ ⟨p, tp⟩ ⟨c, tc⟩ p1 p2 p3).effects
      = (collectWith k2 ctx ⟨u, tu2⟩ ⟨p, tp2⟩ ⟨c, tc2⟩ q1 q2 q3).effects := by
  obtain ⟨uu, ue⟩ := u
  obtain ⟨pp, pe⟩ := p
  obtain ⟨cc, ce⟩ := c
  cases hd : ctx.doneAt with
  | none =>
    simp only [collectWith, recvSelect, hd, selectCase_none]
    cases ue <;> cases pe <;> rfl
  | some d =>
    simp only [sameSide, hd, Bool.or_eq_true, Bool.and_eq_true, decide_eq_true_eq] at hu hp hc
    simp only [entersBeforeDone, hd, Bool.or_eq_true, Bool.and_eq_true, Bool.not_eq_true',
      decide_eq_true_eq, decide_eq_false_iff_not] at hk hk2
    obtain ⟨⟨ka, kb⟩, kc⟩ := hk
    obtain ⟨⟨ka2, kb2⟩, kc2⟩ := hk2
    rcases hu with (⟨hu1, hu2⟩ | ⟨hu1, hu2⟩) | ⟨⟨hue, hu1⟩, hu2⟩
    · have s1 := recvSelect_in_time ctx d k.reach1 tu ue p1 hd ka hu1
      have s1b := recvSelect_in_time ctx d k2.reach1 tu2 ue q1 hd ka2 hu2
      simp only [collectWith, s1, s1b]
      cases ue with
      | some e => rfl
      | none =>
        simp only []
        have e2 : max k.reach1 tu + k.reach2 < d := by
          rcases kb with h | h
          · exact absurd hu1 h
          · exact h
        have e2b : max k2.reach1 tu2 + k2.reach2 < d := by
          rcases kb2 with h | h
          · exact absurd hu2 h
          · exact h
        rcases hp with (⟨hp1, hp2⟩ | ⟨hp1, hp2⟩) | ⟨⟨hpe, hp1⟩, hp2⟩
        · have s2 := recvSelect_in_time ctx d _ tp pe p2 hd e2 hp1
          have s2b := recvSelect_in_time ctx d _ tp2 pe q2 hd e2b hp2
          simp only [s2, s2b]
          cases pe with
          | some e => rfl
          | none =>
            simp only []
            have e3 : max (max k.reach1 tu + k.reach2) tp + k.reach3 < d := by
              rcases kc with (h | h) | h
              · exact absurd hu1 h
              · exact absurd hp1 h
              · exact h
            have e3b : max (max k2.reach1 tu2 + k2.reach2) tp2 + k2.reach3 < d := by
              rcases kc2 with (h | h) | h
              · exact absurd hu2 h
              · exact absurd hp2 h
              · exact h
            rcases hc with hne | hside
            · cases ce with
              | none => exact absurd rfl hne
              | some e =>
                cases (recvSelect ctx (max (max k.reach1 tu + k.reach2) tp + k.reach3) tc
                  (some e) p3).1 <;>
                cases (recvSelect ctx (max (max k2.reach1 tu2 + k2.reach2) tp2 + k2.reach3) tc2
                  (some e) q3).1 <;> rfl
            · rcases hside with (⟨hc1, hc2⟩ | ⟨hc1, hc2⟩) | ⟨⟨hce, hc1⟩, hc2⟩
              · rw [recvSelect_in_time ctx d _ tc ce p3 hd e3 hc1,
                  recvSelect_in_time ctx d _ tc2 ce q3 hd e3b hc2]
              · rw [recvSelect_late ctx d _ tc ce p3 hd e3 (Or.inl hc1),
                  recvSelect_late ctx d _ tc2 ce q3 hd e3b (Or.inl hc2)]
              · rw [recvSelect_late ctx d _ tc ce p3 hd e3 (Or.inr ⟨hce, hc1⟩),
                  recvSelect_late ctx d _ tc2 ce q3 hd e3b (Or.inr ⟨hce, hc2⟩)]
        · have s2 := recvSelect_late ctx d _ tp pe p2 hd e2 (Or.inl hp1)
          have s2b := recvSelect_late ctx d _ tp2 pe q2 hd e2b (Or.inl hp2)
          simp only [s2, s2b]
        · have s2 := recvSelect_late ctx d _ tp pe p2 hd e2 (Or.inr ⟨hpe, hp1⟩)
          have s2b := recvSelect_late ctx d _ tp2 pe q2 hd e2b (Or.inr ⟨hpe, hp2⟩)
          simp only [s2, s2b]
    · have s1 := recvSelect_late ctx d k.reach1 tu ue p1 hd ka (Or.inl hu1)
      have s1b := recvSelect_late ctx d k2.reach1 tu2 ue q1 hd ka2 (Or.inl hu2)
      simp only [collectWith, s1, s1b]
    · have s1 := recvSelect_late ctx d k.reach1 tu ue p1 hd ka (Or.inr ⟨hue, hu1⟩)
      have s1b := recvSelect_late ctx d k2.reach1 tu2 ue q1 hd ka2 (Or.inr ⟨hue, hu2⟩)
      simp only [collectWith, s1, s1b]

/-- Witness of the amended C10 on the reference run with selector 1: identity
and access land before the 200ms deadline, the context call is cut off and
its `DeadlineExceeded` lands at the very instant of the deadline in the one
run and 1ms later in the other; latencies and choices differ. -/
theorem C10_determinism_same_side_witness :
    (collectWith ⟨0, 0, 0⟩ (WithTimeout Background (200 * Millisecond))
        ⟨⟨⟨"123", "Name"⟩, none⟩, 10 * Millisecond⟩ ⟨⟨⟨true⟩, none⟩, 50 * Millisecond⟩
        ⟨⟨⟨""⟩, some error.DeadlineExceeded⟩, 200 * Millisecond⟩
        Case.comm Case.comm Case.comm).effects
      = (collectWith ⟨Microsecond, Microsecond, Microsecond⟩
        (WithTimeout Background (200 * Millisecond))
        ⟨⟨⟨"123", "Name"⟩, none⟩, 12 * Millisecond⟩ ⟨⟨⟨true⟩, none⟩, 55 * Millisecond⟩
        ⟨⟨⟨""⟩, some error.DeadlineExceeded⟩, 201 * Millisecond⟩
        Case.done Case.done Case.done).effects :=
  C10_determinism_same_side (WithTimeout Background (200 * Millisecond))
    ⟨⟨"123", "Name"⟩, none⟩ ⟨⟨true⟩, none⟩ ⟨⟨""⟩, some error.DeadlineExceeded⟩
    (10 * Millisecond) (50 * Millisecond) (200 * Millisecond)
    (12 * Millisecond) (55 * Millisecond) (201 * Millisecond)
    ⟨0, 0, 0⟩ ⟨Microsecond, Microsecond, Microsecond⟩
    Case.comm Case.comm Case.comm Case.done Case.done Case.done
    (by decide) (by decide) (Or.inl (by decide)) (by decide) (by decide)

/-- On the 200 path the handler does join: `wg.Wait()` is executed and the
handler returns no earlier than the last worker finishes. -/
theorem join_on_ok_path (r : Context) (n : Nat) (s : Sched)
    (h : (chatSummaryHandler r n s).status = some 200) :
    (chatSummaryHandler r n s).joined = true ∧
    lastWorkerDone r n s ≤ (chatSummaryHandler r n s).returnedAt := by
  revert h
  simp only [chatSummaryHandler, lastWorkerDone, collect_def]
  generalize WithTimeout r (200 * Millisecond) = cx
  generalize recvSelect cx 0 (userWorker cx s.user).time (userWorker cx s.user).val.Err
    s.pick1 = s1
  obtain ⟨c1, t1⟩ := s1
  cases c1 with
  | done => simp [Run.status, statusOf, StatusInternalServerError]
  | comm =>
    cases (userWorker cx s.user).val.Err with
    | some e => simp [Run.status, statusOf, StatusInternalServerError]
    | none =>
      simp only []
      generalize recvSelect cx t1 (permWorker cx s.perm).time (permWorker cx s.perm).val.Err
        s.pick2 = s2
      obtain ⟨c2, t2⟩ := s2
      cases c2 with
      | done => simp [Run.status, statusOf, StatusInternalServerError]
      | comm =>
        cases (permWorker cx s.perm).val.Err with
        | some e => simp [Run.status, statusOf, StatusInternalServerError]
        | none =>
          intro _
          exact ⟨rfl, le_max_right _ _⟩

end ScatterGather
